import Mathlib

/-!
Shallow embedding of the dvl-analytics server (src/server.js): the event
store (four SQLite tables), the API-key middleware, the `POST /api/track`
ingestion endpoint, the four `GET` listing endpoints, the `GET /api/dashboard`
aggregation endpoint and the `GET /api/health` endpoint, together with
theorems settling the specification claims about them.

Modelling conventions:
* SQLite values bound into rows are modelled by `JsVal` (TEXT, numeric, NULL);
  JSON numbers are modelled as rationals.  A JSON payload (`req.body.data`)
  is an association list of string keys to values; reading an absent key
  yields NULL, mirroring `undefined` being bound as NULL by the driver.
* Server time is an abstract `Nat` (seconds); SQLite `date(timestamp)`
  becomes division by 86400 (`dateOf`).
* `db.run` in the tracking handler is invoked WITHOUT a callback, so an
  asynchronous write failure cannot reach the surrounding try/catch: it is
  modelled by the `writeFails` oracle, which decides whether the handed-off
  insert reaches the table but never influences the HTTP response.  The
  try/catch does catch the synchronous TypeError raised by reading a field
  of an absent `data` object, producing the 500 "Failed to track data" path.
* Each `db.get` sub-query of the dashboard handler may fail (its `err`
  callback argument); the three booleans `e1 e2 e3` are that failure oracle,
  checked in handler nesting order with short-circuit 500.
-/

namespace DvlAnalytics

/-- A value bound into a SQLite column: TEXT, numeric (JSON numbers as
rationals), or NULL. -/
inductive JsVal where
  | str (s : String)
  | num (q : Rat)
  | null
deriving DecidableEq

/-- A JSON object payload (`req.body.data`): an association list from keys
to values. -/
abbrev Payload := List (String × JsVal)

/-- Reading `data.someKey` for binding: an absent key is `undefined` and is
bound as NULL by the driver. -/
def getField (d : Payload) (k : String) : JsVal :=
  (d.lookup k).getD JsVal.null

/-- SQLite `date(t)` on our abstract second counter: the calendar day
index. -/
def dateOf (t : Nat) : Nat := t / 86400

/-- A row of `performance_metrics` (columns as in the CREATE TABLE). -/
structure PerfRow where
  id : Nat
  page_url : JsVal
  load_time : JsVal
  fcp : JsVal
  lcp : JsVal
  cls : JsVal
  fid : JsVal
  ttfb : JsVal
  dom_ready : JsVal
  device_type : JsVal
  timestamp : Nat
deriving DecidableEq

/-- A row of `seo_metrics`. -/
structure SeoRow where
  id : Nat
  page_url : JsVal
  title : JsVal
  meta_description : JsVal
  h1_count : JsVal
  lighthouse_score : JsVal
  images_without_alt : JsVal
  internal_links : JsVal
  external_links : JsVal
  timestamp : Nat
deriving DecidableEq

/-- A row of `form_submissions`. -/
structure FormRow where
  id : Nat
  form_type : JsVal
  page_url : JsVal
  referrer : JsVal
  device_type : JsVal
  conversion_source : JsVal
  timestamp : Nat
deriving DecidableEq

/-- A row of `user_analytics`. -/
structure UserRow where
  id : Nat
  session_id : JsVal
  page_url : JsVal
  referrer : JsVal
  device_type : JsVal
  screen_resolution : JsVal
  user_agent : JsVal
  time_on_page : JsVal
  timestamp : Nat
deriving DecidableEq

/-- The SQLite database: the four tables, each kept in insertion (rowid)
order. -/
structure Store where
  performance_metrics : List PerfRow
  seo_metrics : List SeoRow
  form_submissions : List FormRow
  user_analytics : List UserRow
deriving DecidableEq

/-- A freshly created database with the four empty tables. -/
def emptyStore : Store :=
  { performance_metrics := []
    seo_metrics := []
    form_submissions := []
    user_analytics := []
    }

/-- The row built by the `INSERT INTO performance_metrics` statement:
bound fields from the payload, AUTOINCREMENT id, timestamp defaulted to
the server clock (`CURRENT_TIMESTAMP`). -/
def mkPerfRow (idv : Nat) (now : Nat) (d : Payload) : PerfRow :=
  { id := idv
    page_url := getField d "pageUrl"
    load_time := getField d "loadTime"
    fcp := getField d "fcp"
    lcp := getField d "lcp"
    cls := getField d "cls"
    fid := getField d "fid"
    ttfb := getField d "ttfb"
    dom_ready := getField d "domReady"
    device_type := getField d "deviceType"
    timestamp := now
    }

/-- The row built by the `INSERT INTO seo_metrics` statement. -/
def mkSeoRow (idv : Nat) (now : Nat) (d : Payload) : SeoRow :=
  { id := idv
    page_url := getField d "pageUrl"
    title := getField d "title"
    meta_description := getField d "metaDescription"
    h1_count := getField d "h1Count"
    lighthouse_score := getField d "lighthouseScore"
    images_without_alt := getField d "imagesWithoutAlt"
    internal_links := getField d "internalLinks"
    external_links := getField d "externalLinks"
    timestamp := now
    }

/-- The row built by the `INSERT INTO form_submissions` statement. -/
def mkFormRow (idv : Nat) (now : Nat) (d : Payload) : FormRow :=
  { id := idv
    form_type := getField d "formType"
    page_url := getField d "pageUrl"
    referrer := getField d "referrer"
    device_type := getField d "deviceType"
    conversion_source := getField d "conversionSource"
    timestamp := now
    }

/-- The row built by the `INSERT INTO user_analytics` statement. -/
def mkUserRow (idv : Nat) (now : Nat) (d : Payload) : UserRow :=
  { id := idv
    session_id := getField d "sessionId"
    page_url := getField d "pageUrl"
    referrer := getField d "referrer"
    device_type := getField d "deviceType"
    screen_resolution := getField d "screenResolution"
    user_agent := getField d "userAgent"
    time_on_page := getField d "timeOnPage"
    timestamp := now
    }

/-- Append-only insert into `performance_metrics`. -/
def insertPerformance (s : Store) (now : Nat) (d : Payload) : Store :=
  { s with performance_metrics :=
      s.performance_metrics ++ [mkPerfRow (s.performance_metrics.length + 1) now d] }

/-- Append-only insert into `seo_metrics`. -/
def insertSeo (s : Store) (now : Nat) (d : Payload) : Store :=
  { s with seo_metrics :=
      s.seo_metrics ++ [mkSeoRow (s.seo_metrics.length + 1) now d] }

/-- Append-only insert into `form_submissions`. -/
def insertForm (s : Store) (now : Nat) (d : Payload) : Store :=
  { s with form_submissions :=
      s.form_submissions ++ [mkFormRow (s.form_submissions.length + 1) now d] }

/-- Append-only insert into `user_analytics`. -/
def insertUser (s : Store) (now : Nat) (d : Payload) : Store :=
  { s with user_analytics :=
      s.user_analytics ++ [mkUserRow (s.user_analytics.length + 1) now d] }

/-- The static API key allowlist (`validKeys` in the middleware). -/
def validKeys : List String := ["dvl-media-main", "dvl-media-dev"]

/-- The `validateApiKey` middleware check on the `x-api-key` header:
`!apiKey || !validKeys.includes(apiKey)` rejects a missing header, the
falsy empty string, and any key not in the allowlist. -/
def validateApiKey (apiKey : Option String) : Bool :=
  match apiKey with
  | none => false
  | some k => if k = "" then false else validKeys.contains k

/-- Outcome of a `POST /api/track` request, one constructor per distinct
HTTP response the handler can produce. -/
inductive TrackResult where
  /-- 401 from the middleware: invalid or missing API key. -/
  | unauthorized
  /-- 400 from the switch default: invalid tracking type. -/
  | invalidType
  /-- 500 from the catch block: Failed to track data. -/
  | trackError
  /-- 200 with success true. -/
  | success
deriving DecidableEq

/-- HTTP status code of each tracking outcome. -/
def statusOf : TrackResult → Nat
  | .unauthorized => 401
  | .invalidType => 400
  | .trackError => 500
  | .success => 200

/-- The `POST /api/track` handler behind `validateApiKey`.
`writeFails` is the asynchronous store-failure oracle: `db.run` is called
without a callback, so when the handed-off write fails the row is lost but
the response is unchanged.  An absent `data` object makes the field read
(`data.pageUrl` etc.) throw synchronously, which the catch turns into the
500 response.  Returns the HTTP outcome and the resulting store. -/
def apiTrack (s : Store) (now : Nat) (writeFails : Bool)
    (apiKey : Option String) (type : Option String) (data : Option Payload) :
    TrackResult × Store :=
  if validateApiKey apiKey = false then (.unauthorized, s)
  else
    match type with
    | some t =>
      if t = "performance" then
        match data with
        | none => (.trackError, s)
        | some d => (.success, if writeFails then s else insertPerformance s now d)
      else if t = "seo" then
        match data with
        | none => (.trackError, s)
        | some d => (.success, if writeFails then s else insertSeo s now d)
      else if t = "form" then
        match data with
        | none => (.trackError, s)
        | some d => (.success, if writeFails then s else insertForm s now d)
      else if t = "user" then
        match data with
        | none => (.trackError, s)
        | some d => (.success, if writeFails then s else insertUser s now d)
      else (.invalidType, s)
    | none => (.invalidType, s)

/-- The event types accepted by the switch in the tracking handler. -/
def eventTypes : List String := ["performance", "seo", "form", "user"]

/-- The ordering used by `ORDER BY timestamp DESC`: a row may precede
another when its timestamp is at least as large. -/
def tsDesc {α : Type} (ts : α → Nat) : α → α → Prop :=
  fun a b => ts b ≤ ts a

instance {α : Type} (ts : α → Nat) : DecidableRel (tsDesc ts) :=
  fun a b => Nat.decLe (ts b) (ts a)

instance {α : Type} (ts : α → Nat) : IsTotal α (tsDesc ts) :=
  ⟨fun a b => (Nat.le_total (ts a) (ts b)).symm⟩

instance {α : Type} (ts : α → Nat) : IsTrans α (tsDesc ts) :=
  ⟨fun _ _ _ hab hbc => Nat.le_trans hbc hab⟩

/-- `SELECT * FROM t ORDER BY timestamp DESC LIMIT 100`: sort the table by
descending timestamp and keep the first 100 rows. -/
def selectDescLimit100 {α : Type} (ts : α → Nat) (table : List α) : List α :=
  (table.insertionSort (tsDesc ts)).take 100

/-- `GET /api/performance` success payload. -/
def apiPerformance (s : Store) : List PerfRow :=
  selectDescLimit100 PerfRow.timestamp s.performance_metrics

/-- `GET /api/seo` success payload. -/
def apiSeo (s : Store) : List SeoRow :=
  selectDescLimit100 SeoRow.timestamp s.seo_metrics

/-- `GET /api/forms` success payload. -/
def apiForms (s : Store) : List FormRow :=
  selectDescLimit100 FormRow.timestamp s.form_submissions

/-- `GET /api/users` success payload. -/
def apiUsers (s : Store) : List UserRow :=
  selectDescLimit100 UserRow.timestamp s.user_analytics

/-- SQLite numeric coercion for aggregation over a column: NULL is skipped
by `AVG`, a numeric value is itself, and TEXT coerces to a number (0 for
non-numeric text; no claim depends on the value of text coercion). -/
def numericOf : JsVal → Option Rat
  | .null => none
  | .num q => some q
  | .str _ => some 0

/-- Result row of the dashboard performance sub-query
(`COUNT(*), AVG(load_time) ... WHERE date(timestamp) = date("now")`). -/
structure PerfStats where
  total : Nat
  avg_load_time : Option Rat
deriving DecidableEq

/-- Result row of the dashboard form sub-query. -/
structure FormStats where
  total : Nat
deriving DecidableEq

/-- Result row of the dashboard user sub-query
(`COUNT(DISTINCT session_id)`). -/
structure UserStats where
  unique_sessions : Nat
deriving DecidableEq

/-- The `stats` object the dashboard handler answers with when all three
sub-queries succeed. -/
structure DashboardStats where
  performance : PerfStats
  forms : FormStats
  users : UserStats
deriving DecidableEq

/-- The dashboard error response (`500 Database error`). -/
inductive ApiError where
  | databaseError
deriving DecidableEq

/-- Performance sub-query of the dashboard: count and average of
`load_time` over the performance rows of the current day. -/
def perfStatsQuery (s : Store) (now : Nat) : PerfStats :=
  let rows := s.performance_metrics.filter (fun r => dateOf r.timestamp = dateOf now)
  let vals := rows.filterMap (fun r => numericOf r.load_time)
  { total := rows.length
    avg_load_time :=
      if vals.isEmpty then none else some (vals.sum / (vals.length : Rat)) }

/-- Form sub-query of the dashboard: count of the form rows of the current
day. -/
def formStatsQuery (s : Store) (now : Nat) : FormStats :=
  { total := (s.form_submissions.filter (fun r => dateOf r.timestamp = dateOf now)).length }

/-- Drop NULL, keep any other value (SQL aggregates skip NULL). -/
def nonNullVal : JsVal → Option JsVal
  | .null => none
  | v => some v

/-- The non-NULL `session_id` values of the user rows of the current day,
in rowid order (`COUNT(DISTINCT ...)` ignores NULL). -/
def todaySessionIds (s : Store) (now : Nat) : List JsVal :=
  (s.user_analytics.filter (fun r => dateOf r.timestamp = dateOf now)).filterMap
    (fun r => nonNullVal r.session_id)

/-- User sub-query of the dashboard:
`COUNT(DISTINCT session_id) ... WHERE date(timestamp) = date("now")`. -/
def userStatsQuery (s : Store) (now : Nat) : UserStats :=
  { unique_sessions := (todaySessionIds s now).dedup.length }

/-- The `GET /api/dashboard` handler: three nested `db.get` calls, each
answering `500 Database error` when its callback receives an error
(oracle booleans `e1 e2 e3`, in nesting order), and the full `stats`
object only after all three succeeded. -/
def apiDashboard (s : Store) (now : Nat) (e1 e2 e3 : Bool) :
    Except ApiError DashboardStats :=
  if e1 then .error .databaseError
  else
    let perf := perfStatsQuery s now
    if e2 then .error .databaseError
    else
      let forms := formStatsQuery s now
      if e3 then .error .databaseError
      else .ok { performance := perf, forms := forms, users := userStatsQuery s now }

/-- The `GET /api/health` response body. -/
structure HealthResponse where
  status : String
  service : String
  version : String
  timestamp : Nat
  database : String
deriving DecidableEq

/-- The `GET /api/health` handler: no middleware on the route and no store
access in the body; the request headers (`apiKey`) and the store are in
scope but never consulted. -/
def apiHealth (_s : Store) (_apiKey : Option String) (now : Nat) : HealthResponse :=
  { status := "healthy"
    service := "DVL Analytics API"
    version := "1.0.0"
    timestamp := now
    database := "connected"
    }

/-- Fold inserting one user row per event, each event a server time and a
payload. -/
def insertUserEvents (s : Store) (events : List (Nat × Payload)) : Store :=
  events.foldl (fun acc e => insertUser acc e.1 e.2) s

/-- The payload keys each event type binds into its insert statement; any
other key of the payload is never read. -/
def recognizedKeys : String → List String
  | "performance" =>
    ["pageUrl", "loadTime", "fcp", "lcp", "cls", "fid", "ttfb", "domReady", "deviceType"]
  | "seo" =>
    ["pageUrl", "title", "metaDescription", "h1Count", "lighthouseScore",
     "imagesWithoutAlt", "internalLinks", "externalLinks"]
  | "form" => ["formType", "pageUrl", "referrer", "deviceType", "conversionSource"]
  | "user" =>
    ["sessionId", "pageUrl", "referrer", "deviceType", "screenResolution",
     "userAgent", "timeOnPage"]
  | _ => []

/-- The four entity kinds served by the listing endpoints. -/
inductive EventKind where
  | performance
  | seo
  | form
  | user
deriving DecidableEq

/-- The `type` tag of the tracking request selecting each kind. -/
def kindString : EventKind → String
  | .performance => "performance"
  | .seo => "seo"
  | .form => "form"
  | .user => "user"

/-- A row of any of the four tables, for statements uniform in the entity
kind. -/
inductive Row where
  | perf (r : PerfRow)
  | seo (r : SeoRow)
  | form (r : FormRow)
  | user (r : UserRow)
deriving DecidableEq

/-- The server-assigned timestamp column of a row of any kind. -/
def rowTimestamp : Row → Nat
  | .perf r => r.timestamp
  | .seo r => r.timestamp
  | .form r => r.timestamp
  | .user r => r.timestamp

/-- The table of one kind, as uniform rows in rowid order. -/
def tableRows (s : Store) : EventKind → List Row
  | .performance => s.performance_metrics.map Row.perf
  | .seo => s.seo_metrics.map Row.seo
  | .form => s.form_submissions.map Row.form
  | .user => s.user_analytics.map Row.user

/-- Row count of the table of one kind. -/
def tableLength (s : Store) (k : EventKind) : Nat :=
  (tableRows s k).length

/-- The listing endpoint of one kind, as uniform rows. -/
def listRows (s : Store) : EventKind → List Row
  | .performance => (apiPerformance s).map Row.perf
  | .seo => (apiSeo s).map Row.seo
  | .form => (apiForms s).map Row.form
  | .user => (apiUsers s).map Row.user

/-- First row answered by the listing endpoint of one kind. -/
def listHead (s : Store) (k : EventKind) : Option Row :=
  (listRows s k).head?

/-- The row a successful tracked insert of one kind appends to the store
`s` at server time `now`. -/
def newRow (s : Store) (now : Nat) (d : Payload) : EventKind → Row
  | .performance => .perf (mkPerfRow (s.performance_metrics.length + 1) now d)
  | .seo => .seo (mkSeoRow (s.seo_metrics.length + 1) now d)
  | .form => .form (mkFormRow (s.form_submissions.length + 1) now d)
  | .user => .user (mkUserRow (s.user_analytics.length + 1) now d)

/-- A sample well-formed user payload used as concrete input. -/
def samplePayload : Payload :=
  [("sessionId", JsVal.str "sess-1"), ("pageUrl", JsVal.str "/home"),
   ("referrer", JsVal.str "direct"), ("deviceType", JsVal.str "mobile"),
   ("screenResolution", JsVal.str "390x844"), ("userAgent", JsVal.str "UA"),
   ("timeOnPage", JsVal.num 12)]

/-- The sample user payload with an extra client-supplied timestamp key,
which no insert statement reads. -/
def payloadWithClientTimestamp : Payload :=
  samplePayload ++ [("timestamp", JsVal.str "1999-12-31 23:59:59")]

/-- A sample store: the result of one successful tracked user event at
server time 86400. -/
def sampleStore : Store :=
  (apiTrack emptyStore 86400 false (some "dvl-media-main") (some "user")
    (some samplePayload)).2

lemma validateApiKey_eq_false {apiKey : Option String}
    (h : apiKey ∉ validKeys.map (fun k => some k)) :
    validateApiKey apiKey = false := by
  match apiKey with
  | none => rfl
  | some k =>
    simp only [validKeys, List.map, List.mem_cons, List.not_mem_nil, or_false] at h
    push_neg at h
    obtain ⟨h1, h2⟩ := h
    have hk1 : k ≠ "dvl-media-main" := fun hk => h1 (by rw [hk])
    have hk2 : k ≠ "dvl-media-dev" := fun hk => h2 (by rw [hk])
    by_cases he : k = ""
    · simp [validateApiKey, he]
    · simp [validateApiKey, he, validKeys, hk1, hk2]

/-- Claim C1: for every payload and every API key not in the static
allowlist (or absent), the tracking endpoint answers 401 Unauthorized and
the resulting store is the input store: none of the four tables changes. -/
theorem C1_bad_key_unauthorized_no_write
    (s : Store) (now : Nat) (writeFails : Bool) (apiKey : Option String)
    (type : Option String) (data : Option Payload)
    (h : apiKey ∉ validKeys.map (fun k => some k)) :
    apiTrack s now writeFails apiKey type data = (.unauthorized, s) ∧
      statusOf .unauthorized = 401 := by
  refine ⟨?_, rfl⟩
  rw [apiTrack.eq_def, validateApiKey_eq_false h]
  simp

/-- Witness for C1 at a concrete rejected key and payload. -/
theorem C1_bad_key_unauthorized_no_write_witness :
    (some "wrong-key" : Option String) ∉ validKeys.map (fun k => some k) ∧
      apiTrack emptyStore 86400 false (some "wrong-key") (some "user") (some samplePayload)
        = (.unauthorized, emptyStore) ∧ statusOf .unauthorized = 401 :=
  ⟨by decide,
   C1_bad_key_unauthorized_no_write emptyStore 86400 false (some "wrong-key")
     (some "user") (some samplePayload) (by decide)⟩

/-- Claim C3: with a valid API key, an eventType that is not one of
performance, seo, form, user (or is absent) answers 400 InvalidRequest and
the store — hence every table row count — is unchanged. -/
theorem C3_unknown_type_400_no_write
    (s : Store) (now : Nat) (writeFails : Bool) (apiKey : Option String)
    (type : Option String) (data : Option Payload)
    (hkey : validateApiKey apiKey = true)
    (htype : type ∉ eventTypes.map (fun t => some t)) :
    apiTrack s now writeFails apiKey type data = (.invalidType, s) ∧
      statusOf .invalidType = 400 := by
  refine ⟨?_, rfl⟩
  rw [apiTrack.eq_def, hkey]
  simp only [Bool.true_eq_false, if_false]
  match type with
  | none => rfl
  | some t =>
    simp only [eventTypes, List.map, List.mem_cons, List.not_mem_nil, or_false] at htype
    push_neg at htype
    obtain ⟨h1, h2, h3, h4⟩ := htype
    have ht1 : t ≠ "performance" := fun hk => h1 (by rw [hk])
    have ht2 : t ≠ "seo" := fun hk => h2 (by rw [hk])
    have ht3 : t ≠ "form" := fun hk => h3 (by rw [hk])
    have ht4 : t ≠ "user" := fun hk => h4 (by rw [hk])
    simp [ht1, ht2, ht3, ht4]

/-- Witness for C3 at the concrete unknown type bogus. -/
theorem C3_unknown_type_400_no_write_witness :
    validateApiKey (some "dvl-media-main") = true ∧
      (some "bogus" : Option String) ∉ eventTypes.map (fun t => some t) ∧
      apiTrack emptyStore 86400 false (some "dvl-media-main") (some "bogus")
          (some samplePayload) = (.invalidType, emptyStore) ∧
      statusOf .invalidType = 400 :=
  ⟨by decide, by decide,
   C3_unknown_type_400_no_write emptyStore 86400 false (some "dvl-media-main")
     (some "bogus") (some samplePayload) (by decide) (by decide)⟩

/-- Claim C2 (code bug): the tracking handler calls `db.run` without a
callback, so an asynchronous store-write failure cannot reach the
try/catch: with a valid key and valid eventType the endpoint still answers
200 with success true while the row is lost (the store stays empty),
instead of the 500 StorageWriteFailed the specification requires. -/
theorem C2_write_failure_still_acks :
    apiTrack emptyStore 86400 true (some "dvl-media-main") (some "user")
        (some samplePayload) = (.success, emptyStore) ∧
      statusOf .success = 200 ∧
      (apiTrack emptyStore 86400 false (some "dvl-media-main") (some "user")
          (some samplePayload)).2.user_analytics.length = 1 := by
  refine ⟨?_, rfl, ?_⟩ <;> decide

/-- Counterexample to claim C8 as stated: with a valid key and the valid
eventType performance but `data` absent, the handler answers 500 (the
catch block, Failed to track data), which is not the 400 InvalidRequest
the claim asserts. -/
theorem C8_missing_data_counterexample :
    apiTrack emptyStore 86400 false (some "dvl-media-main") (some "performance") none
        = (.trackError, emptyStore) ∧
      statusOf .trackError = 500 ∧ statusOf .invalidType = 400 ∧
      TrackResult.trackError ≠ TrackResult.invalidType := by
  refine ⟨by decide, rfl, rfl, by decide⟩

/-- Claim C8 as amended: with a valid API key and a valid eventType but the
`data` mapping absent, the field read throws and the handler answers the
generic 500 Failed-to-track-data response (not InvalidRequest), with no
write. -/
theorem C8_missing_data_returns_500
    (s : Store) (now : Nat) (writeFails : Bool) (apiKey : Option String)
    (t : String) (hkey : validateApiKey apiKey = true) (ht : t ∈ eventTypes) :
    apiTrack s now writeFails apiKey (some t) none = (.trackError, s) ∧
      statusOf .trackError = 500 := by
  refine ⟨?_, rfl⟩
  rw [apiTrack.eq_def, hkey]
  simp only [Bool.true_eq_false, if_false]
  simp only [eventTypes, List.mem_cons, List.not_mem_nil, or_false] at ht
  rcases ht with h | h | h | h <;> subst h <;> simp

/-- Witness for the amended C8 at the concrete type performance. -/
theorem C8_missing_data_returns_500_witness :
    validateApiKey (some "dvl-media-dev") = true ∧ "performance" ∈ eventTypes ∧
      apiTrack emptyStore 86400 false (some "dvl-media-dev") (some "performance") none
          = (.trackError, emptyStore) ∧ statusOf .trackError = 500 :=
  ⟨by decide, by decide,
   C8_missing_data_returns_500 emptyStore 86400 false (some "dvl-media-dev")
     "performance" (by decide) (by decide)⟩

lemma length_selectDescLimit100_le {α : Type} (ts : α → Nat) (l : List α) :
    (selectDescLimit100 ts l).length ≤ 100 := by
  rw [selectDescLimit100, List.length_take]
  exact min_le_left _ _

lemma sorted_selectDescLimit100 {α : Type} (ts : α → Nat) (l : List α) :
    (selectDescLimit100 ts l).Pairwise (tsDesc ts) :=
  List.Pairwise.sublist (List.take_sublist _ _)
    (List.sorted_insertionSort (tsDesc ts) l)

lemma mem_selectDescLimit100_of_le100 {α : Type} (ts : α → Nat) (l : List α)
    (r : α) (hlen : l.length ≤ 100) (hr : r ∈ l) :
    r ∈ selectDescLimit100 ts l := by
  rw [selectDescLimit100, List.take_of_length_le]
  · exact (List.mem_insertionSort (tsDesc ts)).2 hr
  · rw [List.length_insertionSort]
    exact hlen

lemma head_selectDescLimit100_fresh {α : Type} (ts : α → Nat) (l : List α)
    (x : α) (h : ∀ r ∈ l, ts r < ts x) :
    (selectDescLimit100 ts (l ++ [x])).head? = some x := by
  have hx : x ∈ (l ++ [x]).insertionSort (tsDesc ts) :=
    (List.mem_insertionSort (tsDesc ts)).2 (by simp)
  rw [selectDescLimit100]
  cases hm : (l ++ [x]).insertionSort (tsDesc ts) with
  | nil => rw [hm] at hx; cases hx
  | cons h₀ rest =>
    have hsorted := List.sorted_insertionSort (tsDesc ts) (l ++ [x])
    have hperm := List.perm_insertionSort (tsDesc ts) (l ++ [x])
    rw [hm] at hx hsorted hperm
    have hstep : ((h₀ :: rest).take 100).head? = some h₀ := rfl
    rw [hstep]
    congr 1
    by_contra hne
    have hx2 : x ∈ rest := by
      rcases List.mem_cons.1 hx with h1 | h1
      · exact absurd h1.symm hne
      · exact h1
    have hle : ts x ≤ ts h₀ := (List.pairwise_cons.1 hsorted).1 x hx2
    have hmem : h₀ ∈ l ++ [x] := hperm.mem_iff.1 (List.mem_cons_self h₀ rest)
    rcases List.mem_append.1 hmem with h1 | h1
    · exact absurd hle (Nat.not_le.2 (h h₀ h1))
    · exact hne (List.mem_singleton.1 h1)

lemma apiTrack_performance_eq (s : Store) (now : Nat) (wf : Bool)
    (apiKey : Option String) (d : Payload) (hkey : validateApiKey apiKey = true) :
    apiTrack s now wf apiKey (some "performance") (some d)
      = (.success, if wf then s else insertPerformance s now d) := by
  rw [apiTrack.eq_def, hkey]
  simp

lemma apiTrack_seo_eq (s : Store) (now : Nat) (wf : Bool)
    (apiKey : Option String) (d : Payload) (hkey : validateApiKey apiKey = true) :
    apiTrack s now wf apiKey (some "seo") (some d)
      = (.success, if wf then s else insertSeo s now d) := by
  rw [apiTrack.eq_def, hkey]
  simp

lemma apiTrack_form_eq (s : Store) (now : Nat) (wf : Bool)
    (apiKey : Option String) (d : Payload) (hkey : validateApiKey apiKey = true) :
    apiTrack s now wf apiKey (some "form") (some d)
      = (.success, if wf then s else insertForm s now d) := by
  rw [apiTrack.eq_def, hkey]
  simp

lemma apiTrack_user_eq (s : Store) (now : Nat) (wf : Bool)
    (apiKey : Option String) (d : Payload) (hkey : validateApiKey apiKey = true) :
    apiTrack s now wf apiKey (some "user") (some d)
      = (.success, if wf then s else insertUser s now d) := by
  rw [apiTrack.eq_def, hkey]
  simp

/-- Claim C4: with a valid key, a present payload, no store failure, and a
server clock strictly past every stored timestamp of that kind, a tracked
submit of any valid eventType succeeds, the listing of that kind answers
the newly inserted row first, the row count of that kind grows by exactly one,
and the other three tables are unchanged. -/
theorem C4_submit_then_list_first
    (k : EventKind) (s : Store) (now : Nat) (apiKey : Option String) (d : Payload)
    (hkey : validateApiKey apiKey = true)
    (hfresh : ∀ r ∈ tableRows s k, rowTimestamp r < now) :
    (apiTrack s now false apiKey (some (kindString k)) (some d)).1 = .success ∧
      tableLength (apiTrack s now false apiKey (some (kindString k)) (some d)).2 k
        = tableLength s k + 1 ∧
      (∀ j, j ≠ k →
        tableRows (apiTrack s now false apiKey (some (kindString k)) (some d)).2 j
          = tableRows s j) ∧
      listHead (apiTrack s now false apiKey (some (kindString k)) (some d)).2 k
        = some (newRow s now d k) := by
  cases k
  case performance =>
    rw [kindString, apiTrack_performance_eq s now false apiKey d hkey, if_neg Bool.false_ne_true]
    refine ⟨rfl, ?_, ?_, ?_⟩
    · simp [tableLength, tableRows, insertPerformance]
    · intro j hj
      cases j
      · exact absurd rfl hj
      · rfl
      · rfl
      · rfl
    · rw [listHead]
      simp only [listRows, apiPerformance, insertPerformance]
      rw [List.head?_map, head_selectDescLimit100_fresh]
      · rfl
      · intro r hr
        exact hfresh (Row.perf r) (List.mem_map_of_mem _ hr)
  case seo =>
    rw [kindString, apiTrack_seo_eq s now false apiKey d hkey, if_neg Bool.false_ne_true]
    refine ⟨rfl, ?_, ?_, ?_⟩
    · simp [tableLength, tableRows, insertSeo]
    · intro j hj
      cases j
      · rfl
      · exact absurd rfl hj
      · rfl
      · rfl
    · rw [listHead]
      simp only [listRows, apiSeo, insertSeo]
      rw [List.head?_map, head_selectDescLimit100_fresh]
      · rfl
      · intro r hr
        exact hfresh (Row.seo r) (List.mem_map_of_mem _ hr)
  case form =>
    rw [kindString, apiTrack_form_eq s now false apiKey d hkey, if_neg Bool.false_ne_true]
    refine ⟨rfl, ?_, ?_, ?_⟩
    · simp [tableLength, tableRows, insertForm]
    · intro j hj
      cases j
      · rfl
      · rfl
      · exact absurd rfl hj
      · rfl
    · rw [listHead]
      simp only [listRows, apiForms, insertForm]
      rw [List.head?_map, head_selectDescLimit100_fresh]
      · rfl
      · intro r hr
        exact hfresh (Row.form r) (List.mem_map_of_mem _ hr)
  case user =>
    rw [kindString, apiTrack_user_eq s now false apiKey d hkey, if_neg Bool.false_ne_true]
    refine ⟨rfl, ?_, ?_, ?_⟩
    · simp [tableLength, tableRows, insertUser]
    · intro j hj
      cases j
      · rfl
      · rfl
      · rfl
      · exact absurd rfl hj
    · rw [listHead]
      simp only [listRows, apiUsers, insertUser]
      rw [List.head?_map, head_selectDescLimit100_fresh]
      · rfl
      · intro r hr
        exact hfresh (Row.user r) (List.mem_map_of_mem _ hr)

/-- Witness for C4: a second user event on the one-row sample store at a
later server time. -/
theorem C4_submit_then_list_first_witness :
    validateApiKey (some "dvl-media-main") = true ∧
      (∀ r ∈ tableRows sampleStore .user, rowTimestamp r < 90000) ∧
      ((apiTrack sampleStore 90000 false (some "dvl-media-main")
          (some (kindString .user)) (some samplePayload)).1 = .success ∧
        tableLength (apiTrack sampleStore 90000 false (some "dvl-media-main")
          (some (kindString .user)) (some samplePayload)).2 .user
          = tableLength sampleStore .user + 1 ∧
        (∀ j, j ≠ EventKind.user →
          tableRows (apiTrack sampleStore 90000 false (some "dvl-media-main")
            (some (kindString .user)) (some samplePayload)).2 j
            = tableRows sampleStore j) ∧
        listHead (apiTrack sampleStore 90000 false (some "dvl-media-main")
          (some (kindString .user)) (some samplePayload)).2 .user
          = some (newRow sampleStore 90000 samplePayload .user)) :=
  ⟨by decide, by decide,
   C4_submit_then_list_first .user sampleStore 90000 (some "dvl-media-main")
     samplePayload (by decide) (by decide)⟩

/-- Claim C6: for every entity kind and store state, the listing endpoint
answers at most 100 rows, in descending timestamp order, and applies no
offset: when the table holds at most 100 rows every table row appears in
the answer. -/
theorem C6_list_limit_100_desc (s : Store) (k : EventKind) :
    (listRows s k).length ≤ 100 ∧
      (listRows s k).Pairwise (fun a b => rowTimestamp b ≤ rowTimestamp a) ∧
      ((tableRows s k).length ≤ 100 → ∀ r ∈ tableRows s k, r ∈ listRows s k) := by
  cases k <;>
    refine ⟨?_, ?_, ?_⟩ <;>
    simp only [listRows, tableRows, apiPerformance, apiSeo, apiForms, apiUsers,
      List.length_map, List.pairwise_map] <;>
    first
      | exact length_selectDescLimit100_le _ _
      | exact sorted_selectDescLimit100 _ _
      | · intro hlen r hr
          rcases List.mem_map.1 hr with ⟨r₀, hr₀, hrfl⟩
          exact hrfl ▸ List.mem_map_of_mem _
            (mem_selectDescLimit100_of_le100 _ _ r₀ hlen hr₀)

/-- Witness for C6: with the one-row sample store, the sole user row is
answered by the listing. -/
theorem C6_list_limit_100_desc_witness :
    (tableRows sampleStore .user).length ≤ 100 ∧
      Row.user (mkUserRow 1 86400 samplePayload) ∈ listRows sampleStore .user :=
  ⟨by decide,
   (C6_list_limit_100_desc sampleStore .user).2.2 (by decide)
     (Row.user (mkUserRow 1 86400 samplePayload)) (by decide)⟩

lemma todaySessionIds_insertUser (s : Store) (t : Nat) (d : Payload) (now : Nat) :
    todaySessionIds (insertUser s t d) now
      = todaySessionIds s now ++
          (if dateOf t = dateOf now
            then (nonNullVal (getField d "sessionId")).toList else []) := by
  rw [todaySessionIds, insertUser]
  simp only [List.filter_append, List.filterMap_append]
  rw [todaySessionIds]
  congr 1
  by_cases hd : dateOf t = dateOf now
  · cases h : nonNullVal (getField d "sessionId") <;> simp [mkUserRow, hd, h]
  · simp [mkUserRow, hd]

lemma sessions_insertUserEvents_subset (now : Nat) (v : JsVal) :
    ∀ (events : List (Nat × Payload)) (s : Store),
      (∀ e ∈ events, getField e.2 "sessionId" = v) →
      (todaySessionIds (insertUserEvents s events) now).toFinset ⊆
        (todaySessionIds s now).toFinset ∪ (nonNullVal v).toList.toFinset := by
  intro events
  induction events with
  | nil =>
    intro s _
    simp [insertUserEvents]
  | cons e rest ih =>
    intro s hall
    have hstep : insertUserEvents s (e :: rest) = insertUserEvents (insertUser s e.1 e.2) rest :=
      rfl
    rw [hstep]
    refine (ih (insertUser s e.1 e.2) (fun x hx => hall x (List.mem_cons_of_mem e hx))).trans ?_
    rw [todaySessionIds_insertUser, hall e (List.mem_cons_self e rest)]
    intro x hx
    rcases Finset.mem_union.1 hx with h1 | h1
    · rw [List.toFinset_append] at h1
      rcases Finset.mem_union.1 h1 with h2 | h2
      · exact Finset.mem_union_left _ h2
      · by_cases hd : dateOf e.1 = dateOf now
        · rw [if_pos hd] at h2
          exact Finset.mem_union_right _ h2
        · rw [if_neg hd] at h2
          cases h2
    · exact Finset.mem_union_right _ h1

/-- Claim C5: the dashboard unique-session number is the count of distinct
non-NULL session identifiers among the user rows of the current day, and
inserting any number of user rows sharing one session id value raises it
by at most 1. -/
theorem C5_unique_sessions_distinct :
    (∀ (s : Store) (now : Nat),
      (userStatsQuery s now).unique_sessions = (todaySessionIds s now).toFinset.card) ∧
      (∀ (s : Store) (now : Nat) (v : JsVal) (events : List (Nat × Payload)),
        (∀ e ∈ events, getField e.2 "sessionId" = v) →
        (userStatsQuery (insertUserEvents s events) now).unique_sessions
          ≤ (userStatsQuery s now).unique_sessions + 1) := by
  have hcard : ∀ (s : Store) (now : Nat),
      (userStatsQuery s now).unique_sessions = (todaySessionIds s now).toFinset.card := by
    intro s now
    rw [userStatsQuery, List.card_toFinset]
  refine ⟨hcard, ?_⟩
  intro s now v events hall
  rw [hcard, hcard]
  calc (todaySessionIds (insertUserEvents s events) now).toFinset.card
      ≤ ((todaySessionIds s now).toFinset ∪ (nonNullVal v).toList.toFinset).card :=
        Finset.card_le_card (sessions_insertUserEvents_subset now v events s hall)
    _ ≤ (todaySessionIds s now).toFinset.card + (nonNullVal v).toList.toFinset.card :=
        Finset.card_union_le _ _
    _ ≤ (todaySessionIds s now).toFinset.card + 1 := by
        have : (nonNullVal v).toList.toFinset.card ≤ 1 := by
          cases nonNullVal v <;> simp
        omega

/-- Witness for C5: three user events sharing one session id on an empty
store yield a unique-session count of at most 1. -/
theorem C5_unique_sessions_distinct_witness :
    (∀ e ∈ [((86400 : Nat), samplePayload), (86500, samplePayload),
        (90000, payloadWithClientTimestamp)],
      getField e.2 "sessionId" = JsVal.str "sess-1") ∧
      (userStatsQuery (insertUserEvents emptyStore
          [(86400, samplePayload), (86500, samplePayload),
           (90000, payloadWithClientTimestamp)]) 86400).unique_sessions
        ≤ (userStatsQuery emptyStore 86400).unique_sessions + 1 :=
  ⟨by decide,
   C5_unique_sessions_distinct.2 emptyStore 86400 (JsVal.str "sess-1")
     [(86400, samplePayload), (86500, samplePayload),
      (90000, payloadWithClientTimestamp)] (by decide)⟩

/-- Claim C7: the dashboard answers the 500 database error exactly when
one of its three sub-queries fails, and answers a stats object exactly
when all three succeed, in which case the object carries all three
sub-query results — no partly populated summary is ever produced. -/
theorem C7_dashboard_all_or_nothing (s : Store) (now : Nat) (e1 e2 e3 : Bool) :
    (apiDashboard s now e1 e2 e3 = .error .databaseError ↔ (e1 || e2 || e3) = true) ∧
      (∀ st, apiDashboard s now e1 e2 e3 = .ok st ↔
        e1 = false ∧ e2 = false ∧ e3 = false ∧
          st = { performance := perfStatsQuery s now
                 forms := formStatsQuery s now
                 users := userStatsQuery s now }) := by
  cases e1 <;> cases e2 <;> cases e3 <;>
    refine ⟨by simp [apiDashboard], fun st => ?_⟩ <;>
    simp [apiDashboard, eq_comm]

lemma mkPerfRow_congr (idv now : Nat) (d1 d2 : Payload)
    (h : ∀ key ∈ recognizedKeys "performance", getField d1 key = getField d2 key) :
    mkPerfRow idv now d1 = mkPerfRow idv now d2 := by
  rw [mkPerfRow, mkPerfRow, h "pageUrl" (by decide), h "loadTime" (by decide),
    h "fcp" (by decide), h "lcp" (by decide), h "cls" (by decide),
    h "fid" (by decide), h "ttfb" (by decide), h "domReady" (by decide),
    h "deviceType" (by decide)]

lemma mkSeoRow_congr (idv now : Nat) (d1 d2 : Payload)
    (h : ∀ key ∈ recognizedKeys "seo", getField d1 key = getField d2 key) :
    mkSeoRow idv now d1 = mkSeoRow idv now d2 := by
  rw [mkSeoRow, mkSeoRow, h "pageUrl" (by decide), h "title" (by decide),
    h "metaDescription" (by decide), h "h1Count" (by decide),
    h "lighthouseScore" (by decide), h "imagesWithoutAlt" (by decide),
    h "internalLinks" (by decide), h "externalLinks" (by decide)]

lemma mkFormRow_congr (idv now : Nat) (d1 d2 : Payload)
    (h : ∀ key ∈ recognizedKeys "form", getField d1 key = getField d2 key) :
    mkFormRow idv now d1 = mkFormRow idv now d2 := by
  rw [mkFormRow, mkFormRow, h "formType" (by decide), h "pageUrl" (by decide),
    h "referrer" (by decide), h "deviceType" (by decide),
    h "conversionSource" (by decide)]

lemma mkUserRow_congr (idv now : Nat) (d1 d2 : Payload)
    (h : ∀ key ∈ recognizedKeys "user", getField d1 key = getField d2 key) :
    mkUserRow idv now d1 = mkUserRow idv now d2 := by
  rw [mkUserRow, mkUserRow, h "sessionId" (by decide), h "pageUrl" (by decide),
    h "referrer" (by decide), h "deviceType" (by decide),
    h "screenResolution" (by decide), h "userAgent" (by decide),
    h "timeOnPage" (by decide)]

/-- Claim C9: a successful submit appends one row whose timestamp column
is the server clock at insert time, and the response and stored rows are
a function of only the recognized payload keys: two submits agreeing on
them — e.g. differing only in a client-supplied timestamp key — behave
identically. -/
theorem C9_server_timestamp_not_client :
    (∀ (s : Store) (now : Nat) (d : Payload) (k : EventKind) (apiKey : Option String),
      validateApiKey apiKey = true →
      tableRows (apiTrack s now false apiKey (some (kindString k)) (some d)).2 k
          = tableRows s k ++ [newRow s now d k] ∧
        rowTimestamp (newRow s now d k) = now) ∧
      (∀ (s : Store) (now : Nat) (writeFails : Bool) (apiKey : Option String)
        (t : String) (d1 d2 : Payload),
        (∀ key ∈ recognizedKeys t, getField d1 key = getField d2 key) →
        apiTrack s now writeFails apiKey (some t) (some d1)
          = apiTrack s now writeFails apiKey (some t) (some d2)) := by
  constructor
  · intro s now d k apiKey hkey
    cases k
    case performance =>
      rw [kindString, apiTrack_performance_eq s now false apiKey d hkey,
        if_neg Bool.false_ne_true]
      exact ⟨by simp [tableRows, insertPerformance, newRow], rfl⟩
    case seo =>
      rw [kindString, apiTrack_seo_eq s now false apiKey d hkey,
        if_neg Bool.false_ne_true]
      exact ⟨by simp [tableRows, insertSeo, newRow], rfl⟩
    case form =>
      rw [kindString, apiTrack_form_eq s now false apiKey d hkey,
        if_neg Bool.false_ne_true]
      exact ⟨by simp [tableRows, insertForm, newRow], rfl⟩
    case user =>
      rw [kindString, apiTrack_user_eq s now false apiKey d hkey,
        if_neg Bool.false_ne_true]
      exact ⟨by simp [tableRows, insertUser, newRow], rfl⟩
  · intro s now writeFails apiKey t d1 d2 h
    cases hv : validateApiKey apiKey with
    | false =>
      rw [apiTrack.eq_def, apiTrack.eq_def, hv]
      simp
    | true =>
      by_cases h1 : t = "performance"
      · subst h1
        have he : insertPerformance s now d1 = insertPerformance s now d2 := by
          rw [insertPerformance, insertPerformance,
            mkPerfRow_congr (s.performance_metrics.length + 1) now d1 d2 h]
        rw [apiTrack_performance_eq s now writeFails apiKey d1 hv,
          apiTrack_performance_eq s now writeFails apiKey d2 hv, he]
      by_cases h2 : t = "seo"
      · subst h2
        have he : insertSeo s now d1 = insertSeo s now d2 := by
          rw [insertSeo, insertSeo,
            mkSeoRow_congr (s.seo_metrics.length + 1) now d1 d2 h]
        rw [apiTrack_seo_eq s now writeFails apiKey d1 hv,
          apiTrack_seo_eq s now writeFails apiKey d2 hv, he]
      by_cases h3 : t = "form"
      · subst h3
        have he : insertForm s now d1 = insertForm s now d2 := by
          rw [insertForm, insertForm,
            mkFormRow_congr (s.form_submissions.length + 1) now d1 d2 h]
        rw [apiTrack_form_eq s now writeFails apiKey d1 hv,
          apiTrack_form_eq s now writeFails apiKey d2 hv, he]
      by_cases h4 : t = "user"
      · subst h4
        have he : insertUser s now d1 = insertUser s now d2 := by
          rw [insertUser, insertUser,
            mkUserRow_congr (s.user_analytics.length + 1) now d1 d2 h]
        rw [apiTrack_user_eq s now writeFails apiKey d1 hv,
          apiTrack_user_eq s now writeFails apiKey d2 hv, he]
      rw [apiTrack.eq_def, apiTrack.eq_def, hv]
      simp [h1, h2, h3, h4]

/-- Witness for C9: a user submit with an extra client timestamp key
behaves exactly like one without it, and the stored row carries the
server clock. -/
theorem C9_server_timestamp_not_client_witness :
    (∀ key ∈ recognizedKeys "user",
      getField payloadWithClientTimestamp key = getField samplePayload key) ∧
      apiTrack emptyStore 86400 false (some "dvl-media-main") (some "user")
          (some payloadWithClientTimestamp)
        = apiTrack emptyStore 86400 false (some "dvl-media-main") (some "user")
          (some samplePayload) ∧
      validateApiKey (some "dvl-media-main") = true ∧
      tableRows (apiTrack emptyStore 86400 false (some "dvl-media-main")
          (some (kindString .user)) (some samplePayload)).2 .user
        = tableRows emptyStore .user ++ [newRow emptyStore 86400 samplePayload .user] ∧
      rowTimestamp (newRow emptyStore 86400 samplePayload .user) = 86400 :=
  ⟨by decide,
   C9_server_timestamp_not_client.2 emptyStore 86400 false (some "dvl-media-main")
     "user" payloadWithClientTimestamp samplePayload (by decide),
   by decide,
   (C9_server_timestamp_not_client.1 emptyStore 86400 samplePayload .user
     (some "dvl-media-main") (by decide)).1,
   (C9_server_timestamp_not_client.1 emptyStore 86400 samplePayload .user
     (some "dvl-media-main") (by decide)).2⟩

/-- Claim C10: the health endpoint answers status healthy and database
connected for every request, independent of the store state and of any
API key — no store access and no authentication. -/
theorem C10_health_always_healthy (s s₂ : Store) (apiKey apiKey₂ : Option String)
    (now : Nat) :
    apiHealth s apiKey now = apiHealth s₂ apiKey₂ now ∧
      (apiHealth s apiKey now).status = "healthy" ∧
      (apiHealth s apiKey now).database = "connected" ∧
      (apiHealth s apiKey now).service = "DVL Analytics API" :=
  ⟨rfl, rfl, rfl, rfl⟩

end DvlAnalytics
